import Mathlib

/-!
Verification development for the TUN device manager in
src/node_modules/appium-xcuitest-driver/node_modules/appium-ios-tuntap/src/tuntap.cc.

The C++ core is shallowly embedded: syscall outcomes (socket, connect,
getsockopt, fcntl, read, write) are supplied explicitly as environment
records, and each operation is a pure function from the device state and
the environment to the new device state together with an Except-valued
result mirroring the thrown JavaScript exceptions.  File descriptors are
modelled as integers with the source's sentinel convention (value < 0
means no handle held).
-/

namespace TunTap

/- Error message constants, taken verbatim from tuntap.cc.  Messages built
with strerror(errno) in the source keep the fixed text here and receive
the errno text by string append. -/

def msgShutdown : String := "Shutdown in progress"

def msgNotOpen : String := "Device not open"

def msgSocket : String := "Failed to create control socket: "

def msgCtlInfo : String := "Failed to get utun control info: "

def msgConnectSpecified : String := "Failed to connect to utun control socket with specified unit: "

def msgConnectScan : String := "Failed to connect to utun control socket: "

def msgNoUnit : String := "Could not find an available utun device"

def msgIfname : String := "Failed to get utun interface name: "

def msgGetfl : String := "Failed to get file descriptor flags: "

def msgSetfl : String := "Failed to set non-blocking mode: "

def msgRead : String := "Read error: "

def msgWrite : String := "Write error: "

def msgPollInit : String := "Failed to initialize poll handle"

def msgPollStart : String := "Failed to start polling"

def msgNeedFun : String := "Expected function as first argument"

def msgBusy : String := "Resource busy"

def msgDevMissing : String := "TUN/TAP device not available: /dev/net/tun does not exist. Please ensure the TUN/TAP kernel module is loaded (modprobe tun)."

/-- Prefix of the open failure message on the Linux path (line 288).  The
source appends strerror(errno) and then a remediation sentence about
permissions; the errno text is appended below and the fixed remediation
suffix is elided from the model. -/
def msgDevOpen : String := "Failed to open /dev/net/tun: "

def msgConfigure : String := "Failed to configure TUN device: "

/-- RAII file-descriptor wrapper (class FileDescriptor, tuntap.cc lines
35-85).  The integer field follows the source invariant: a value below 0
means no handle is held. -/
structure FileDescriptor where
  val : Int
deriving DecidableEq, Repr

/-- FileDescriptor::get (line 69). -/
def FileDescriptor.get (f : FileDescriptor) : Int := f.val

/-- FileDescriptor::is_valid (line 77): fd_ >= 0. -/
def FileDescriptor.isValid (f : FileDescriptor) : Bool := decide (0 ≤ f.val)

/-- FileDescriptor::reset (lines 79-84): closes a held handle, stores the
new value.  The second component counts kernel close calls performed. -/
def FileDescriptor.reset (f : FileDescriptor) (newFd : Int) : FileDescriptor × Nat :=
  (⟨newFd⟩, if 0 ≤ f.val then 1 else 0)

/-- FileDescriptor::release (lines 71-75): relinquishes ownership without
closing. -/
def FileDescriptor.release (f : FileDescriptor) : FileDescriptor × Int :=
  (⟨-1⟩, f.val)

/-- FileDescriptor destructor (lines 43-47): closes a held handle.  Counts
kernel close calls performed. -/
def FileDescriptor.destruct (f : FileDescriptor) : Nat :=
  if 0 ≤ f.val then 1 else 0

/-- The mutable per-device state of class TunDevice (lines 109-115):
the owned descriptor fd_, the interface name name_, the atomic is_open_
flag, whether poll_handle_ is non-null, and whether tsfn_ is set. -/
structure TunDevice where
  fd : FileDescriptor
  name : String
  isOpen : Bool
  pollActive : Bool
  chanActive : Bool
deriving DecidableEq, Repr

/-- TunDevice constructor (lines 145-153): stores the optionally requested
interface name; fd_ starts invalid, is_open_ false, no poll state. -/
def devNew (requested : String) : TunDevice :=
  ⟨⟨-1⟩, requested, false, false, false⟩

/-- TunDevice::GetFd (lines 478-481): returns fd_.get(). -/
def getFd (d : TunDevice) : Int := d.fd.get

/-- TunDevice::GetName (lines 473-476). -/
def getName (d : TunDevice) : String := d.name

/-- Result of one connect() attempt on the control socket: success, errno
EBUSY, or any other errno (carried as its strerror text). -/
inductive ConnectRes where
  | ok : ConnectRes
  | busy : ConnectRes
  | fatal : String → ConnectRes
deriving DecidableEq, Repr

/-- The strerror text of a failed connect attempt. -/
def ConnectRes.errStr : ConnectRes → String
  | .ok => ""
  | .busy => msgBusy
  | .fatal m => m

/-- Unit-scanning loop of TunDevice::Open (lines 243-260): starting at
sc_unit = 1 and stopping when sc_unit reaches 255, connect to each unit;
success ends the scan, errno EBUSY moves to the next unit, any other
errno is fatal; exhausting the range without a success reports that no
utun device is available.  The fuel argument equals 255 minus the current
unit, making the recursion structural. -/
def scanAux (connect : Nat → ConnectRes) : Nat → Nat → Except String Nat
  | 0, _ => .error msgNoUnit
  | fuel + 1, u =>
    if u < 255 then
      match connect u with
      | .ok => .ok u
      | .busy => scanAux connect fuel (u + 1)
      | .fatal m => .error (msgConnectScan ++ m)
    else .error msgNoUnit

/-- The scan as performed by Open: units 1, 2, ..., 254. -/
def scanUnits (connect : Nat → ConnectRes) : Except String Nat :=
  scanAux connect 254 1

/-- Longest leading run of decimal digits, accumulating its value
(std::stoi stops at the first non-digit). -/
def takeDigitsVal (acc : Nat) : List Char → Nat
  | [] => acc
  | c :: cs => if c.isDigit then takeDigitsVal (acc * 10 + (c.toNat - 48)) cs else acc

/-- std::stoi on a character list: optional sign followed by at least one
digit; none when no conversion is possible (std::invalid_argument, caught
by the source).  Out-of-range is not modelled: values are unbounded
here. -/
def stoiOpt : List Char → Option Int
  | [] => none
  | c :: cs =>
    if c = '-' then
      match cs with
      | [] => none
      | d :: _ => if d.isDigit then some (-(Int.ofNat (takeDigitsVal 0 cs))) else none
    else if c = '+' then
      match cs with
      | [] => none
      | d :: _ => if d.isDigit then some (Int.ofNat (takeDigitsVal 0 cs)) else none
    else if c.isDigit then some (Int.ofNat (takeDigitsVal 0 (c :: cs))) else none

/-- Whether the first list starts with the second (name_.find(tag) == 0). -/
def listStartsWith : List Char → List Char → Bool
  | _, [] => true
  | [], _ :: _ => false
  | a :: as, b :: bs => a == b && listStartsWith as bs

def utunChars : List Char := ['u', 't', 'u', 'n']

/-- Requested-unit parsing of Open (lines 223-231): a non-empty name
beginning with the utun tag yields stoi of the rest plus one (kernel unit
numbering), any parse failure yields 0 (meaning: scan for a free unit). -/
def parseUnitReq (nm : String) : Int :=
  if !nm.data.isEmpty && listStartsWith nm.data utunChars then
    match stoiOpt (nm.data.drop 4) with
    | some v => v + 1
    | none => 0
  else 0

/-- Environment for one TunDevice::Open attempt on the BSD-style (utun)
path: the result of socket() (negative means failure), the CTLIOCGINFO
ioctl outcome, the connect() outcome per unit, the UTUN_OPT_IFNAME
getsockopt outcome (none means failure), and the two fcntl outcomes,
each failure with its strerror text. -/
structure UtunEnv where
  socketFd : Int
  socketErr : String
  ctlInfoOk : Bool
  ctlErr : String
  connect : Nat → ConnectRes
  ifnameRes : Option String
  ifnameErr : String
  getflOk : Bool
  getflErr : String
  setflOk : Bool
  setflErr : String

/-- Common finalization of Open (lines 263-338): adopt the kernel-reported
interface name (note: this mutates name_ before the fcntl steps), set
non-blocking mode via the two fcntl calls, then store the descriptor and
mark the device open. -/
def finishOpen (d : TunDevice) (e : UtunEnv) : TunDevice × Except String Bool :=
  match e.ifnameRes with
  | none => (d, .error (msgIfname ++ e.ifnameErr))
  | some nm =>
    if e.getflOk = false then ({ d with name := nm }, .error (msgGetfl ++ e.getflErr))
    else if e.setflOk = false then ({ d with name := nm }, .error (msgSetfl ++ e.setflErr))
    else ({ d with name := nm, fd := ⟨e.socketFd⟩, isOpen := true }, .ok true)

/-- TunDevice::Open on the BSD-style (utun) path (lines 180-339): no-op
when already open; rejected during shutdown; then control-socket
creation, control-info query, a direct connect when the requested name
encodes a unit (any connect failure fatal) or the unit scan otherwise,
followed by the common finalization. -/
def openUtun (d : TunDevice) (shutdown : Bool) (e : UtunEnv) : TunDevice × Except String Bool :=
  if d.isOpen = true then (d, .ok true)
  else if shutdown = true then (d, .error msgShutdown)
  else if e.socketFd < 0 then (d, .error (msgSocket ++ e.socketErr))
  else if e.ctlInfoOk = false then (d, .error (msgCtlInfo ++ e.ctlErr))
  else if 0 < parseUnitReq d.name then
    match e.connect (parseUnitReq d.name).toNat with
    | .ok => finishOpen d e
    | r => (d, .error (msgConnectSpecified ++ ConnectRes.errStr r))
  else
    match scanUnits e.connect with
    | .ok _ => finishOpen d e
    | .error m => (d, .error m)

/-- Environment for one TunDevice::Open attempt on the ioctl-based (Linux)
path: whether the /dev/net/tun device node exists (the stat at line 279),
the result of opening it (negative means failure, line 286), the TUNSETIFF
ioctl outcome as a function from the name placed in the request to either
the syscall error text or the kernel-confirmed interface name in the same
request structure (lines 296-315), and the two fcntl outcomes shared with
the BSD path (lines 318-332). -/
structure LinuxEnv where
  devNodeExists : Bool
  openFd : Int
  openErr : String
  tunsetiff : String → Except String String
  getflOk : Bool
  getflErr : String
  setflOk : Bool
  setflErr : String

/-- The name placed in the TUNSETIFF request (lines 302-306): empty when
no name was requested, otherwise the requested name truncated by strncpy
to IFNAMSIZ - 1 = 15 characters. -/
def ifrName (requested : String) : String :=
  if requested.data.isEmpty then "" else String.mk (requested.data.take 15)

/-- TunDevice::Open on the ioctl-based (Linux) path (lines 180-191 and
275-339): no-op when already open; rejected during shutdown; then the
device-node check, opening the node, the TUNSETIFF configure ioctl with
the pre-filled request; on its success the kernel-confirmed name is
adopted (line 315, note: before the fcntl steps), non-blocking mode is
set via the two fcntl calls, and the descriptor is stored with the
device marked open. -/
def openLinux (d : TunDevice) (shutdown : Bool) (e : LinuxEnv) : TunDevice × Except String Bool :=
  if d.isOpen = true then (d, .ok true)
  else if shutdown = true then (d, .error msgShutdown)
  else if e.devNodeExists = false then (d, .error msgDevMissing)
  else if e.openFd < 0 then (d, .error (msgDevOpen ++ e.openErr))
  else
    match e.tunsetiff (ifrName d.name) with
    | .error m => (d, .error (msgConfigure ++ m))
    | .ok nm =>
      if e.getflOk = false then ({ d with name := nm }, .error (msgGetfl ++ e.getflErr))
      else if e.setflOk = false then ({ d with name := nm }, .error (msgSetfl ++ e.setflErr))
      else ({ d with name := nm, fd := ⟨e.openFd⟩, isOpen := true }, .ok true)

/-- Effect counters for poll-registration and asynchronous-channel
resources (uv_poll_t allocations and ThreadSafeFunction acquisitions),
used to state leak-freedom. -/
structure PollEffects where
  pollAcq : Nat
  pollRel : Nat
  chanAcq : Nat
  chanRel : Nat
deriving DecidableEq, Repr

def PollEffects.zero : PollEffects := ⟨0, 0, 0, 0⟩

def PollEffects.add (a b : PollEffects) : PollEffects :=
  ⟨a.pollAcq + b.pollAcq, a.pollRel + b.pollRel, a.chanAcq + b.chanAcq, a.chanRel + b.chanRel⟩

/-- TunDevice::StopPolling (lines 522-532): stop and delete the poll
handle when present, release the thread-safe function when present.
Counts the releases performed. -/
def stopPolling (d : TunDevice) : TunDevice × PollEffects :=
  ({ d with pollActive := false, chanActive := false },
   ⟨0, if d.pollActive then 1 else 0, 0, if d.chanActive then 1 else 0⟩)

/-- TunDevice::StartPolling (lines 483-520): requires the device open and
a function argument; stops any previous registration; acquires the
thread-safe function, then initializes and starts the poll handle, either
uv call failing with an error (leaving the freshly acquired channel in
place, as the source does); on success the poll handle is retained. -/
def startPolling (d : TunDevice) (hasCb pollInitOk pollStartOk : Bool) :
    TunDevice × PollEffects × Except String Unit :=
  if d.isOpen = false ∨ d.fd.isValid = false then (d, PollEffects.zero, .error msgNotOpen)
  else if hasCb = false then (d, PollEffects.zero, .error msgNeedFun)
  else
    let s := stopPolling d
    let d2 := { s.1 with chanActive := true }
    let e2 : PollEffects := ⟨0, s.2.pollRel, 1, s.2.chanRel⟩
    if pollInitOk = false then (d2, e2, .error msgPollInit)
    else if pollStartOk = false then (d2, e2, .error msgPollStart)
    else ({ d2 with pollActive := true }, ⟨1, e2.pollRel, 1, e2.chanRel⟩, .ok ())

/-- TunDevice::CloseInternal (lines 173-178): when open, clear is_open_,
stop polling, reset the descriptor.  The second component counts kernel
close calls performed by the reset. -/
def closeInternal (d : TunDevice) : TunDevice × Nat :=
  if d.isOpen = true then
    let d1 := (stopPolling d).1
    let r := d1.fd.reset (-1)
    ({ d1 with isOpen := false, fd := r.1 }, r.2)
  else (d, 0)

/-- TunDevice destructor (lines 155-158) followed by the member fd_
destructor: CloseInternal, then the FileDescriptor destructor closes any
still-held handle.  Counts all kernel close calls. -/
def destroyCloses (d : TunDevice) : Nat :=
  (closeInternal d).2 + ((closeInternal d).1.fd.destruct)

/-- n successive CloseInternal calls, accumulating kernel close calls. -/
def closeN (d : TunDevice) : Nat → TunDevice × Nat
  | 0 => (d, 0)
  | n + 1 =>
    let r1 := closeInternal d
    let r2 := closeN r1.1 n
    (r2.1, r1.2 + r2.2)

/-- Outcome of one read() syscall: the return value, whether errno is
EAGAIN/EWOULDBLOCK, the strerror text otherwise, and the bytes the kernel
placed in the buffer (the first ret of them meaningful when ret > 0). -/
structure ReadSyscall where
  ret : Int
  wouldBlock : Bool
  errnoMsg : String
  data : List Nat

/-- TunDevice::Read, BSD-style path (lines 348-396): requires the device
open; during shutdown returns an empty buffer; a syscall return of 0 or
below is would-block (empty result) or an error; a return above 4 strips
the 4-byte protocol-family header; a return of 1 to 4 yields an empty
result. -/
def readUtun (d : TunDevice) (shutdown : Bool) (bufSize : Nat) (s : ReadSyscall) :
    Except String (List Nat) :=
  if d.isOpen = false ∨ d.fd.isValid = false then .error msgNotOpen
  else if shutdown = true then .ok []
  else if s.ret ≤ 0 then
    if s.wouldBlock = true then .ok [] else .error (msgRead ++ s.errnoMsg)
  else if 4 < s.ret then .ok ((s.data.take s.ret.toNat).drop 4)
  else .ok []

/-- TunDevice::Read, ioctl-based (Linux) path (lines 348-368 and 397-414):
requires the device open; during shutdown returns an empty buffer; only a
negative syscall return reaches the error branch (would-block yielding an
empty result); otherwise the first ret bytes are returned unmodified. -/
def readLinux (d : TunDevice) (shutdown : Bool) (bufSize : Nat) (s : ReadSyscall) :
    Except String (List Nat) :=
  if d.isOpen = false ∨ d.fd.isValid = false then .error msgNotOpen
  else if shutdown = true then .ok []
  else if s.ret < 0 then
    if s.wouldBlock = true then .ok [] else .error (msgRead ++ s.errnoMsg)
  else .ok (s.data.take s.ret.toNat)

/-- AF_INET6 on Darwin. -/
def AF_INET6 : Nat := 30

/-- The four bytes of htonl applied to a 32-bit value: network byte order
is big-endian. -/
def htonlBytes (n : Nat) : List Nat :=
  [n / 2 ^ 24 % 256, n / 2 ^ 16 % 256, n / 2 ^ 8 % 256, n % 256]

/-- TunDevice::Write, BSD-style path (lines 417-458): requires the device
open and no shutdown; prepends the 4-byte network-byte-order AF_INET6
header to the payload and submits the framed bytes to the write syscall
(given as a function from the submitted bytes to the syscall return); a
negative return is an error; otherwise the reported count is the return
minus 4, clamped to zero at 4 or fewer accepted bytes.  The first
component records the bytes submitted to the syscall, none when no
syscall was made. -/
def writeUtun (d : TunDevice) (shutdown : Bool) (payload : List Nat)
    (wsys : List Nat → Int) : Option (List Nat) × Except String Int :=
  if d.isOpen = false ∨ d.fd.isValid = false then (none, .error msgNotOpen)
  else if shutdown = true then (none, .error msgShutdown)
  else
    let frame := htonlBytes AF_INET6 ++ payload
    let bw := wsys frame
    if bw < 0 then (some frame, .error msgWrite)
    else (some frame, .ok (if 4 < bw then bw - 4 else 0))

/-- TunDevice::PollCallback delivery decision, BSD-style path (lines
534-564): nothing is delivered when the device is no longer open or the
descriptor invalid, or when the read returned 0 or below (would-block or
logged error); above 4 bytes the 4-byte header is stripped and the rest
delivered; 1 to 4 bytes yield no delivery. -/
def pollDeliverUtun (isOpenNow fdValid : Bool) (ret : Int) (wouldBlock : Bool)
    (data : List Nat) : Option (List Nat) :=
  if isOpenNow = false ∨ fdValid = false then none
  else if ret ≤ 0 then none
  else if 4 < ret then some ((data.take ret.toNat).drop 4)
  else none

/-- TunDevice::RegisterDevice (lines 160-163): push_back of the device
(identified here by a numeric id) onto the global registry. -/
def registerDevice (registry : List Nat) (id : Nat) : List Nat :=
  registry ++ [id]

/-- TunDevice::UnregisterDevice (lines 165-171): erase-remove of every
entry equal to the device. -/
def unregisterDevice (registry : List Nat) (id : Nat) : List Nat :=
  registry.filter (fun j => j != id)

/-- Process-wide state: one device together with the global registry
g_active_devices. -/
structure Sys where
  dev : TunDevice
  registry : List Nat

/-- One externally invocable device operation, with its syscall
environment. -/
inductive DevOp where
  | openU : Bool → UtunEnv → DevOp
  | closeD : DevOp
  | readU : DevOp
  | writeU : DevOp
  | startP : Bool → Bool → Bool → DevOp
  | stopP : DevOp

/-- Device-state effect of one operation, as implemented: Read and Write
mutate no device fields. -/
def stepDev (d : TunDevice) : DevOp → TunDevice
  | .openU sh e => (openUtun d sh e).1
  | .closeD => (closeInternal d).1
  | .readU => d
  | .writeU => d
  | .startP cb ok1 ok2 => (startPolling d cb ok1 ok2).1
  | .stopP => (stopPolling d).1

/-- System-level effect of one operation: Open and CloseInternal contain
no call to RegisterDevice or UnregisterDevice in the source, so the
registry is untouched by every operation. -/
def stepSys (s : Sys) (op : DevOp) : Sys :=
  ⟨stepDev s.dev op, s.registry⟩

def runOps (d : TunDevice) : List DevOp → TunDevice
  | [] => d
  | op :: rest => runOps (stepDev d op) rest

def runSys (s : Sys) : List DevOp → Sys
  | [] => s
  | op :: rest => runSys (stepSys s op) rest

/-- Successive successful StartPolling calls (callback supplied, both uv
calls succeeding), accumulating resource effects. -/
def iterStart (d : TunDevice) : Nat → TunDevice × PollEffects
  | 0 => (d, PollEffects.zero)
  | n + 1 =>
    let r := startPolling d true true true
    let r2 := iterStart r.1 n
    (r2.1, PollEffects.add r.2.1 r2.2)

/-- Device invariant tying is_open_ to the descriptor and the name: closed
means no handle held, open means a valid handle and a non-empty name. -/
def devInvariant (d : TunDevice) : Prop :=
  (d.isOpen = false → d.fd.val = -1) ∧ (d.isOpen = true → 0 ≤ d.fd.val ∧ d.name ≠ "")

/-- Environment restriction for the invariant: a kernel-reported interface
name, when the name query succeeds, is non-empty. -/
def opNameOk : DevOp → Bool
  | .openU _ e =>
    match e.ifnameRes with
    | some nm => decide (nm ≠ "")
    | none => true
  | _ => true

/- Concrete fixtures used by witnesses and counterexamples. -/

def noName : String := ""

def utun1Name : String := "utun1"

def badFdMsg : String := "Bad file descriptor"

def ioErrMsg : String := "Input-output error"

/-- An environment in which every syscall of the open path succeeds. -/
def envAllOk : UtunEnv :=
  { socketFd := 3, socketErr := noName, ctlInfoOk := true, ctlErr := noName,
    connect := fun _ => .ok, ifnameRes := some utun1Name, ifnameErr := noName,
    getflOk := true, getflErr := noName, setflOk := true, setflErr := noName }

/-- Same environment except the F_GETFL fcntl fails. -/
def envGetflFails : UtunEnv :=
  { envAllOk with getflOk := false, getflErr := badFdMsg }

/-- A Linux-path environment in which the /dev/net/tun node is missing
while every later syscall would succeed. -/
def envLinuxNoDev : LinuxEnv :=
  { devNodeExists := false, openFd := 4, openErr := noName,
    tunsetiff := fun nm => .ok nm, getflOk := true, getflErr := noName,
    setflOk := true, setflErr := noName }

/-- A device that has been opened successfully: descriptor 3, kernel name
adopted. -/
def devOpen3 : TunDevice := ⟨⟨3⟩, utun1Name, true, false, false⟩

/-- An open device that is also polling, holding descriptor 5. -/
def devPolling5 : TunDevice := ⟨⟨5⟩, utun1Name, true, true, true⟩

def payload3 : List Nat := [9, 8, 7]

def wsysLen : List Nat → Int := fun l => (l.length : Int)

/-- A read syscall returning 0 bytes with a non-would-block errno. -/
def sysRead0 : ReadSyscall := ⟨0, false, ioErrMsg, []⟩

/-- A connect map where units 1 and 2 are busy and unit 3 is free. -/
def busyThenOk : Nat → ConnectRes := fun u => if u < 3 then .busy else .ok

/-- A read syscall returning 9 bytes: the 4-byte AF_INET6 header followed
by a 5-byte payload. -/
def sysRead9 : ReadSyscall := ⟨9, false, noName, [0, 0, 0, 30, 1, 2, 3, 4, 5]⟩

/- Helper lemmas. -/

/-- Outcomes of the common open finalization: either full success adopting
the kernel name and the socket descriptor, or an error leaving the device
unchanged except possibly for the already-adopted kernel name. -/
lemma finishOpen_cases (d : TunDevice) (e : UtunEnv) :
    ((finishOpen d e).2 = .ok true ∧ ∃ nm, e.ifnameRes = some nm ∧
      (finishOpen d e).1 = { d with name := nm, fd := ⟨e.socketFd⟩, isOpen := true })
    ∨ (∃ msg, (finishOpen d e).2 = .error msg ∧
      ((finishOpen d e).1 = d ∨
        ∃ nm, e.ifnameRes = some nm ∧ (finishOpen d e).1 = { d with name := nm })) := by
  unfold finishOpen
  cases h : e.ifnameRes with
  | none => exact .inr ⟨_, rfl, .inl rfl⟩
  | some nm =>
    by_cases hg : e.getflOk = false
    · simp only [hg, if_true]
      exact .inr ⟨_, rfl, .inr ⟨nm, rfl, rfl⟩⟩
    · by_cases hs : e.setflOk = false
      · simp only [hg, hs, if_false, if_true]
        exact .inr ⟨_, rfl, .inr ⟨nm, rfl, rfl⟩⟩
      · simp only [hg, hs, if_false]
        exact .inl ⟨rfl, nm, rfl, rfl⟩

/-- Outcomes of Open on the utun path: a no-op on an already-open device,
an error leaving is_open false, the descriptor and the poll fields
untouched and the name either untouched or set to the kernel-reported
name, or full success. -/
lemma openUtun_cases (d : TunDevice) (sh : Bool) (e : UtunEnv) :
    (d.isOpen = true ∧ openUtun d sh e = (d, .ok true))
    ∨ (∃ msg, (openUtun d sh e).2 = .error msg
        ∧ (openUtun d sh e).1.isOpen = d.isOpen
        ∧ (openUtun d sh e).1.fd = d.fd
        ∧ (openUtun d sh e).1.pollActive = d.pollActive
        ∧ (openUtun d sh e).1.chanActive = d.chanActive
        ∧ ((openUtun d sh e).1.name = d.name
            ∨ ∃ nm, e.ifnameRes = some nm ∧ (openUtun d sh e).1.name = nm))
    ∨ (0 ≤ e.socketFd ∧ ∃ nm, e.ifnameRes = some nm ∧
        openUtun d sh e = ({ d with name := nm, fd := ⟨e.socketFd⟩, isOpen := true }, .ok true)) := by
  by_cases ho : d.isOpen = true
  · exact .inl ⟨ho, by simp [openUtun, ho]⟩
  have hplain : ∀ m : String, openUtun d sh e = (d, .error m) →
      (∃ msg, (openUtun d sh e).2 = .error msg
        ∧ (openUtun d sh e).1.isOpen = d.isOpen
        ∧ (openUtun d sh e).1.fd = d.fd
        ∧ (openUtun d sh e).1.pollActive = d.pollActive
        ∧ (openUtun d sh e).1.chanActive = d.chanActive
        ∧ ((openUtun d sh e).1.name = d.name
            ∨ ∃ nm, e.ifnameRes = some nm ∧ (openUtun d sh e).1.name = nm)) := by
    intro m hq
    refine ⟨m, ?_, ?_, ?_, ?_, ?_, ?_⟩ <;> rw [hq]
    exact Or.inl rfl
  by_cases hsh : sh = true
  · exact .inr (.inl (hplain msgShutdown (by simp [openUtun, ho, hsh])))
  by_cases hsk : e.socketFd < 0
  · exact .inr (.inl (hplain (msgSocket ++ e.socketErr) (by simp [openUtun, ho, hsh, hsk])))
  by_cases hct : e.ctlInfoOk = false
  · exact .inr (.inl (hplain (msgCtlInfo ++ e.ctlErr) (by simp [openUtun, ho, hsh, hsk, hct])))
  have hred : openUtun d sh e =
      (if 0 < parseUnitReq d.name then
        match e.connect (parseUnitReq d.name).toNat with
        | .ok => finishOpen d e
        | r => (d, .error (msgConnectSpecified ++ ConnectRes.errStr r))
      else
        match scanUnits e.connect with
        | .ok _ => finishOpen d e
        | .error m => (d, .error m)) := by
    simp [openUtun, ho, hsh, hsk, hct]
  have hfd : 0 ≤ e.socketFd := by omega
  have hfromFinish : openUtun d sh e = finishOpen d e →
      (∃ msg, (openUtun d sh e).2 = .error msg
        ∧ (openUtun d sh e).1.isOpen = d.isOpen
        ∧ (openUtun d sh e).1.fd = d.fd
        ∧ (openUtun d sh e).1.pollActive = d.pollActive
        ∧ (openUtun d sh e).1.chanActive = d.chanActive
        ∧ ((openUtun d sh e).1.name = d.name
            ∨ ∃ nm, e.ifnameRes = some nm ∧ (openUtun d sh e).1.name = nm))
      ∨ (0 ≤ e.socketFd ∧ ∃ nm, e.ifnameRes = some nm ∧
          openUtun d sh e = ({ d with name := nm, fd := ⟨e.socketFd⟩, isOpen := true }, .ok true)) := by
    intro hq
    rcases finishOpen_cases d e with ⟨h2, nm, hn, h1⟩ | ⟨msg, h2, h1⟩
    · refine .inr ⟨hfd, nm, hn, ?_⟩
      rw [hq]
      exact Prod.ext h1 h2
    · rcases h1 with h1 | ⟨nm, hn, h1⟩
      · refine .inl ⟨msg, ?_, ?_, ?_, ?_, ?_, Or.inl ?_⟩
        · rw [hq]; exact h2
        · rw [hq, h1]
        · rw [hq, h1]
        · rw [hq, h1]
        · rw [hq, h1]
        · rw [hq, h1]
      · refine .inl ⟨msg, ?_, ?_, ?_, ?_, ?_, Or.inr ⟨nm, hn, ?_⟩⟩
        · rw [hq]; exact h2
        · rw [hq, h1]
        · rw [hq, h1]
        · rw [hq, h1]
        · rw [hq, h1]
        · rw [hq, h1]
  by_cases hu : 0 < parseUnitReq d.name
  · cases hc : e.connect (parseUnitReq d.name).toNat with
    | ok =>
      apply Or.inr
      apply hfromFinish
      rw [hred, if_pos hu, hc]
    | busy =>
      exact .inr (.inl (hplain (msgConnectSpecified ++ msgBusy)
        (by rw [hred, if_pos hu, hc]; rfl)))
    | fatal m =>
      exact .inr (.inl (hplain (msgConnectSpecified ++ m)
        (by rw [hred, if_pos hu, hc]; rfl)))
  · cases hs : scanUnits e.connect with
    | ok u =>
      apply Or.inr
      apply hfromFinish
      rw [hred, if_neg hu, hs]
    | error m =>
      exact .inr (.inl (hplain m (by rw [hred, if_neg hu, hs])))

/-- Failure outcomes of the common open finalization: either the name
query itself failed and the device is untouched, or a fcntl step failed
after the kernel name was already adopted. -/
lemma finishOpen_fail (d : TunDevice) (e : UtunEnv) (msg : String)
    (h : (finishOpen d e).2 = .error msg) :
    ((finishOpen d e).1 = d ∧ e.ifnameRes = none)
    ∨ (∃ nm, e.ifnameRes = some nm ∧ (e.getflOk = false ∨ e.setflOk = false)
        ∧ (finishOpen d e).1 = { d with name := nm }) := by
  cases hn : e.ifnameRes with
  | none =>
    have hq : (finishOpen d e).1 = d := by simp [finishOpen, hn]
    exact .inl ⟨hq, rfl⟩
  | some nm =>
    by_cases hg : e.getflOk = false
    · have hq : (finishOpen d e).1 = { d with name := nm } := by
        simp [finishOpen, hn, hg]
      exact .inr ⟨nm, rfl, .inl hg, hq⟩
    · by_cases hs2 : e.setflOk = false
      · have hq : (finishOpen d e).1 = { d with name := nm } := by
          simp [finishOpen, hn, hg, hs2]
        exact .inr ⟨nm, rfl, .inr hs2, hq⟩
      · exfalso
        have hq : (finishOpen d e).2 = Except.ok true := by
          simp [finishOpen, hn, hg, hs2]
        rw [hq] at h
        exact nomatch h

/-- On the utun path, a failed open on a closed device leaves the device
entirely unchanged unless the failure is a fcntl failure after a
successful name query, in which case only the name has been updated to
the kernel-reported name. -/
lemma openUtun_failure_state (d : TunDevice) (sh : Bool) (e : UtunEnv)
    (hopen : d.isOpen = false) (msg : String)
    (herr : (openUtun d sh e).2 = .error msg) :
    (openUtun d sh e).1 = d
    ∨ ∃ nm, e.ifnameRes = some nm ∧ (e.getflOk = false ∨ e.setflOk = false)
        ∧ (openUtun d sh e).1 = { d with name := nm } := by
  have ho : ¬ d.isOpen = true := by simp [hopen]
  by_cases hsh : sh = true
  · left
    simp [openUtun, ho, hsh]
  by_cases hsk : e.socketFd < 0
  · left
    simp [openUtun, ho, hsh, hsk]
  by_cases hct : e.ctlInfoOk = false
  · left
    simp [openUtun, ho, hsh, hsk, hct]
  have hred : openUtun d sh e =
      (if 0 < parseUnitReq d.name then
        match e.connect (parseUnitReq d.name).toNat with
        | .ok => finishOpen d e
        | r => (d, .error (msgConnectSpecified ++ ConnectRes.errStr r))
      else
        match scanUnits e.connect with
        | .ok _ => finishOpen d e
        | .error m => (d, .error m)) := by
    simp [openUtun, ho, hsh, hsk, hct]
  have hfin : openUtun d sh e = finishOpen d e →
      (openUtun d sh e).1 = d
      ∨ ∃ nm, e.ifnameRes = some nm ∧ (e.getflOk = false ∨ e.setflOk = false)
          ∧ (openUtun d sh e).1 = { d with name := nm } := by
    intro hq
    rw [hq] at herr ⊢
    rcases finishOpen_fail d e msg herr with ⟨h1, _⟩ | ⟨nm, hn, hgs, h1⟩
    · exact .inl h1
    · exact .inr ⟨nm, hn, hgs, h1⟩
  by_cases hu : 0 < parseUnitReq d.name
  · cases hc : e.connect (parseUnitReq d.name).toNat with
    | ok => exact hfin (by rw [hred, if_pos hu, hc])
    | busy =>
      left
      rw [hred, if_pos hu, hc]
    | fatal m =>
      left
      rw [hred, if_pos hu, hc]
  · cases hs2 : scanUnits e.connect with
    | ok u => exact hfin (by rw [hred, if_neg hu, hs2])
    | error m =>
      left
      rw [hred, if_neg hu, hs2]

/-- On the Linux path, a failed open on a closed device leaves the device
entirely unchanged unless the failure is a fcntl failure after a
successful configure ioctl, in which case only the name has been updated
to the kernel-confirmed name. -/
lemma openLinux_failure_state (d : TunDevice) (sh : Bool) (e : LinuxEnv)
    (hopen : d.isOpen = false) (msg : String)
    (herr : (openLinux d sh e).2 = .error msg) :
    (openLinux d sh e).1 = d
    ∨ ∃ nm, e.tunsetiff (ifrName d.name) = .ok nm
        ∧ (e.getflOk = false ∨ e.setflOk = false)
        ∧ (openLinux d sh e).1 = { d with name := nm } := by
  have ho : ¬ d.isOpen = true := by simp [hopen]
  by_cases hsh : sh = true
  · left
    simp [openLinux, ho, hsh]
  by_cases hdev : e.devNodeExists = false
  · left
    simp [openLinux, ho, hsh, hdev]
  by_cases hofd : e.openFd < 0
  · left
    simp [openLinux, ho, hsh, hdev, hofd]
  cases ht : e.tunsetiff (ifrName d.name) with
  | error m =>
    left
    simp [openLinux, ho, hsh, hdev, hofd, ht]
  | ok nm =>
    by_cases hg : e.getflOk = false
    · refine .inr ⟨nm, rfl, .inl hg, ?_⟩
      simp [openLinux, ho, hsh, hdev, hofd, ht, hg]
    · by_cases hs2 : e.setflOk = false
      · refine .inr ⟨nm, rfl, .inr hs2, ?_⟩
        simp [openLinux, ho, hsh, hdev, hofd, ht, hg, hs2]
      · exfalso
        have hq : (openLinux d sh e).2 = Except.ok true := by
          simp [openLinux, ho, hsh, hdev, hofd, ht, hg, hs2]
        rw [hq] at herr
        exact nomatch herr

/-- C1 is false as stated: in an environment where every open step up to the
kernel name query succeeds and then the F_GETFL fcntl fails, open raises an
error and retains no handle, yet the device's interface name has changed
from the empty requested name to the kernel-reported name, so the
observable state is not the same as before the call. -/
theorem c1_open_name_mutation_cex :
    (openUtun (devNew noName) false envGetflFails).2 = Except.error (msgGetfl ++ badFdMsg)
    ∧ (openUtun (devNew noName) false envGetflFails).1.isOpen = false
    ∧ (openUtun (devNew noName) false envGetflFails).1.name ≠ (devNew noName).name :=
  ⟨rfl, by decide, by decide⟩

/-- C1 (amended): for every call to open() on a device that is not already
open, on both platform paths, if any step fails (control-socket creation,
control-info query, connect, name query, device-node check, opening the
device node, configure ioctl, or setting non-blocking mode), open raises
an error and leaves the device closed: is_open stays false, the
descriptor is unchanged (no handle retained) and the poll registration
fields are unchanged; a failure at any step up to and including the name
resolution leaves the device entirely unchanged (in particular its
interface name), and only a fcntl failure while setting non-blocking
mode, after the name was resolved, leaves the name already updated to the
kernel-resolved name — in particular, when both fcntl steps would
succeed, every open failure leaves the device exactly as it was. -/
theorem c1_open_failure_leaves_closed (d : TunDevice) (sh : Bool) (e : UtunEnv)
    (el : LinuxEnv) (hopen : d.isOpen = false) :
    (∀ msg, (openUtun d sh e).2 = Except.error msg →
      (openUtun d sh e).1.isOpen = false
      ∧ (openUtun d sh e).1.fd = d.fd
      ∧ (openUtun d sh e).1.pollActive = d.pollActive
      ∧ (openUtun d sh e).1.chanActive = d.chanActive
      ∧ ((openUtun d sh e).1 = d
          ∨ ∃ nm, e.ifnameRes = some nm ∧ (e.getflOk = false ∨ e.setflOk = false)
              ∧ (openUtun d sh e).1 = { d with name := nm })
      ∧ (e.getflOk = true → e.setflOk = true → (openUtun d sh e).1 = d))
    ∧ (∀ msg, (openLinux d sh el).2 = Except.error msg →
      (openLinux d sh el).1.isOpen = false
      ∧ (openLinux d sh el).1.fd = d.fd
      ∧ (openLinux d sh el).1.pollActive = d.pollActive
      ∧ (openLinux d sh el).1.chanActive = d.chanActive
      ∧ ((openLinux d sh el).1 = d
          ∨ ∃ nm, el.tunsetiff (ifrName d.name) = Except.ok nm
              ∧ (el.getflOk = false ∨ el.setflOk = false)
              ∧ (openLinux d sh el).1 = { d with name := nm })
      ∧ (el.getflOk = true → el.setflOk = true → (openLinux d sh el).1 = d)) := by
  constructor
  · intro msg herr
    rcases openUtun_failure_state d sh e hopen msg herr with h1 | ⟨nm, hn, hgs, h1⟩
    · rw [h1]
      refine ⟨hopen, rfl, rfl, rfl, .inl rfl, fun _ _ => rfl⟩
    · rw [h1]
      refine ⟨hopen, rfl, rfl, rfl, .inr ⟨nm, hn, hgs, rfl⟩, fun hg hs2 => ?_⟩
      rcases hgs with hgs | hgs
      · rw [hg] at hgs
        exact nomatch hgs
      · rw [hs2] at hgs
        exact nomatch hgs
  · intro msg herr
    rcases openLinux_failure_state d sh el hopen msg herr with h1 | ⟨nm, hn, hgs, h1⟩
    · rw [h1]
      refine ⟨hopen, rfl, rfl, rfl, .inl rfl, fun _ _ => rfl⟩
    · rw [h1]
      refine ⟨hopen, rfl, rfl, rfl, .inr ⟨nm, hn, hgs, rfl⟩, fun hg hs2 => ?_⟩
      rcases hgs with hgs | hgs
      · rw [hg] at hgs
        exact nomatch hgs
      · rw [hs2] at hgs
        exact nomatch hgs

/-- Witness for C1: on the utun side, the concrete fcntl-failure
environment leaves the device closed with its descriptor unchanged and
the name already set to the kernel name; on the Linux side, a missing
/dev/net/tun (an early failure, with both fcntl steps fine) leaves the
device entirely unchanged. -/
theorem c1_open_failure_leaves_closed_w :
    (openUtun (devNew noName) false envGetflFails).1.isOpen = false
    ∧ (openUtun (devNew noName) false envGetflFails).1.fd = (devNew noName).fd
    ∧ (openUtun (devNew noName) false envGetflFails).1 =
        { devNew noName with name := utun1Name }
    ∧ (openLinux (devNew noName) false envLinuxNoDev).1 = devNew noName := by
  have h := c1_open_failure_leaves_closed (devNew noName) false envGetflFails envLinuxNoDev
    (by decide)
  have h1 := h.1 (msgGetfl ++ badFdMsg) (by rfl)
  have h2 := h.2 msgDevMissing (by rfl)
  refine ⟨h1.1, h1.2.1, ?_, h2.2.2.2.2.2 (by decide) (by decide)⟩
  rcases h1.2.2.2.2.1 with hx | ⟨nm, hn, _, hx⟩
  · exact absurd hx (by decide)
  · have hnm : nm = utun1Name := by
      have : some nm = some utun1Name := hn.symm.trans (by rfl)
      injection this with h3
    rw [hx, hnm]

/-- C2: on the BSD-style path, for every open device and payload of N
bytes, write submits exactly N + 4 bytes consisting of the fixed 4-byte
network-byte-order AF_INET6 header followed by the payload unchanged, and
on a non-negative syscall count returns the count minus 4, clamped to
zero when the syscall accepted 4 or fewer bytes. -/
theorem c2_write_bsd_framing (d : TunDevice) (payload : List Nat) (wsys : List Nat → Int)
    (hopen : d.isOpen = true) (hfd : 0 ≤ d.fd.val) :
    (writeUtun d false payload wsys).1 = some (htonlBytes AF_INET6 ++ payload)
    ∧ (htonlBytes AF_INET6 ++ payload).length = payload.length + 4
    ∧ htonlBytes AF_INET6 = [0, 0, 0, 30]
    ∧ List.drop 4 (htonlBytes AF_INET6 ++ payload) = payload
    ∧ (0 ≤ wsys (htonlBytes AF_INET6 ++ payload) →
        (writeUtun d false payload wsys).2 =
          Except.ok (if 4 < wsys (htonlBytes AF_INET6 ++ payload)
            then wsys (htonlBytes AF_INET6 ++ payload) - 4 else 0)) := by
  have hv : d.fd.isValid = true := by simp [FileDescriptor.isValid, hfd]
  refine ⟨?_, ?_, rfl, rfl, ?_⟩
  · simp only [writeUtun]
    rw [if_neg (by simp [hopen, hv]), if_neg (by simp)]
    split
    · rfl
    · rfl
  · simp [htonlBytes]
  · intro h
    simp only [writeUtun]
    rw [if_neg (by simp [hopen, hv]), if_neg (by simp), if_neg (by omega)]

/-- Witness for C2: writing a 3-byte payload through a syscall that accepts
everything submits the 7-byte frame and reports 3 bytes written. -/
theorem c2_write_bsd_framing_w :
    (writeUtun devOpen3 false payload3 wsysLen).1 = some (htonlBytes AF_INET6 ++ payload3)
    ∧ (writeUtun devOpen3 false payload3 wsysLen).2 = Except.ok 3 := by
  have h := c2_write_bsd_framing devOpen3 payload3 wsysLen (by decide) (by decide)
  refine ⟨h.1, ?_⟩
  rw [h.2.2.2.2 (by decide)]
  rfl

/-- C3 is false as stated: a read syscall returning exactly 0 bytes with a
non-would-block errno is routed to the error branch on the BSD-style path
(the source tests bytes_read <= 0), so a syscall result of 4 or fewer
bytes does not always yield a zero-length result. -/
theorem c3_read_zero_errors_cex :
    readUtun devOpen3 false 4096 sysRead0 = Except.error (msgRead ++ ioErrMsg)
    ∧ readUtun devOpen3 false 4096 sysRead0 ≠ Except.ok [] := by
  have h : readUtun devOpen3 false 4096 sysRead0 = Except.error (msgRead ++ ioErrMsg) := rfl
  refine ⟨h, ?_⟩
  rw [h]
  exact fun hh => nomatch hh

/-- C3 (amended): on the BSD-style path, for every open device, a read
whose syscall returns 4 + N bytes (N > 0) yields exactly the N payload
bytes with the first 4 stripped; a syscall result of 1 to 4 bytes yields
a zero-length result; a zero-or-negative result with a would-block errno
yields a zero-length result; any other zero-or-negative result (including
a zero-byte return) surfaces the underlying error; and the poll callback
delivers under the same stripping rule. -/
theorem c3_read_bsd_stripping (d : TunDevice) (bufSize : Nat) (s : ReadSyscall)
    (hopen : d.isOpen = true) (hfd : 0 ≤ d.fd.val) :
    (1 ≤ s.ret → s.ret ≤ 4 → readUtun d false bufSize s = Except.ok [])
    ∧ (s.ret ≤ 0 → s.wouldBlock = true → readUtun d false bufSize s = Except.ok [])
    ∧ (s.ret ≤ 0 → s.wouldBlock = false →
        readUtun d false bufSize s = Except.error (msgRead ++ s.errnoMsg))
    ∧ (4 < s.ret → readUtun d false bufSize s = Except.ok ((s.data.take s.ret.toNat).drop 4))
    ∧ (4 < s.ret → s.ret.toNat ≤ s.data.length →
        ((s.data.take s.ret.toNat).drop 4).length = s.ret.toNat - 4)
    ∧ (∀ r : Int, ∀ wb : Bool, ∀ dt : List Nat, pollDeliverUtun true true r wb dt =
        if 4 < r then some ((dt.take r.toNat).drop 4) else none) := by
  have hv : d.fd.isValid = true := by simp [FileDescriptor.isValid, hfd]
  refine ⟨?_, ?_, ?_, ?_, ?_, ?_⟩
  · intro h1 h4
    unfold readUtun
    rw [if_neg (by simp [hopen, hv]), if_neg (by simp), if_neg (by omega), if_neg (by omega)]
  · intro h0 hwb
    unfold readUtun
    rw [if_neg (by simp [hopen, hv]), if_neg (by simp), if_pos h0, if_pos hwb]
  · intro h0 hwb
    unfold readUtun
    rw [if_neg (by simp [hopen, hv]), if_neg (by simp), if_pos h0, if_neg (by simp [hwb])]
  · intro h4
    unfold readUtun
    rw [if_neg (by simp [hopen, hv]), if_neg (by simp), if_neg (by omega), if_pos h4]
  · intro h4 hlen
    rw [List.length_drop, List.length_take]
    omega
  · intro r wb dt
    unfold pollDeliverUtun
    rw [if_neg (by simp)]
    by_cases hr : r ≤ 0
    · rw [if_pos hr, if_neg (by omega)]
    · rw [if_neg hr]

/-- Witness for C3: a 9-byte read on an open device yields the 5 payload
bytes after the 4-byte header. -/
theorem c3_read_bsd_stripping_w :
    readUtun devOpen3 false 4096 sysRead9 = Except.ok [1, 2, 3, 4, 5]
    ∧ ((sysRead9.data.take sysRead9.ret.toNat).drop 4).length = sysRead9.ret.toNat - 4 := by
  have h := c3_read_bsd_stripping devOpen3 4096 sysRead9 (by decide) (by decide)
  refine ⟨?_, h.2.2.2.2.1 (by decide) (by decide)⟩
  rw [h.2.2.2.1 (by decide)]
  rfl

/-- C4: whenever the global shutdown flag is set, open() on a not-yet-open
device fails with the shutdown-in-progress error without touching the
device, write() on an open device fails with the shutdown error without
reaching the write syscall, and read() on an open device returns a
zero-length result instead of throwing (on both platform paths). -/
theorem c4_shutdown_gates (d : TunDevice) (e : UtunEnv) (payload : List Nat)
    (wsys : List Nat → Int) (bufSize : Nat) (s : ReadSyscall) :
    (d.isOpen = false →
      (openUtun d true e).2 = Except.error msgShutdown ∧ (openUtun d true e).1 = d)
    ∧ (d.isOpen = true → 0 ≤ d.fd.val →
      (writeUtun d true payload wsys).2 = Except.error msgShutdown
        ∧ (writeUtun d true payload wsys).1 = none)
    ∧ (d.isOpen = true → 0 ≤ d.fd.val →
      readUtun d true bufSize s = Except.ok [] ∧ readLinux d true bufSize s = Except.ok []) := by
  refine ⟨fun h => ?_, fun h hfd => ?_, fun h hfd => ?_⟩
  · have hq : openUtun d true e = (d, Except.error msgShutdown) := by
      simp [openUtun, h]
    rw [hq]
    exact ⟨rfl, rfl⟩
  · have hv : d.fd.isValid = true := by simp [FileDescriptor.isValid, hfd]
    unfold writeUtun
    rw [if_neg (by simp [h, hv]), if_pos rfl]
    exact ⟨rfl, rfl⟩
  · have hv : d.fd.isValid = true := by simp [FileDescriptor.isValid, hfd]
    constructor
    · unfold readUtun
      rw [if_neg (by simp [h, hv]), if_pos rfl]
    · unfold readLinux
      rw [if_neg (by simp [h, hv]), if_pos rfl]

/-- Witness for C4: with the shutdown flag set, a concrete closed device
fails to open with the shutdown error, and a concrete open device fails
to write with the shutdown error and reads back an empty buffer. -/
theorem c4_shutdown_gates_w :
    (openUtun (devNew noName) true envAllOk).2 = Except.error msgShutdown
    ∧ (writeUtun devOpen3 true payload3 wsysLen).2 = Except.error msgShutdown
    ∧ readUtun devOpen3 true 4096 sysRead0 = Except.ok [] :=
  ⟨((c4_shutdown_gates (devNew noName) envAllOk payload3 wsysLen 4096 sysRead0).1
      (by decide)).1,
   ((c4_shutdown_gates devOpen3 envAllOk payload3 wsysLen 4096 sysRead0).2.1
      (by decide) (by decide)).1,
   ((c4_shutdown_gates devOpen3 envAllOk payload3 wsysLen 4096 sysRead0).2.2
      (by decide) (by decide)).1⟩

/-- C10: on the ioctl-based (Linux) read path of an open device, a read
syscall returning exactly 0 bytes yields a zero-length buffer rather than
an error; the error branch is reached only on a negative return, and a
negative return with a would-block errno also yields a zero-length
result. -/
theorem c10_linux_read_zero_ok (d : TunDevice) (bufSize : Nat) (s : ReadSyscall)
    (hopen : d.isOpen = true) (hfd : 0 ≤ d.fd.val) :
    (s.ret = 0 → readLinux d false bufSize s = Except.ok [])
    ∧ (0 ≤ s.ret → readLinux d false bufSize s = Except.ok (s.data.take s.ret.toNat))
    ∧ (s.ret < 0 → s.wouldBlock = true → readLinux d false bufSize s = Except.ok [])
    ∧ (s.ret < 0 → s.wouldBlock = false →
        readLinux d false bufSize s = Except.error (msgRead ++ s.errnoMsg)) := by
  have hv : d.fd.isValid = true := by simp [FileDescriptor.isValid, hfd]
  refine ⟨?_, ?_, ?_, ?_⟩
  · intro h0
    unfold readLinux
    rw [if_neg (by simp [hopen, hv]), if_neg (by simp), if_neg (by omega), h0]
    rfl
  · intro h0
    unfold readLinux
    rw [if_neg (by simp [hopen, hv]), if_neg (by simp), if_neg (by omega)]
  · intro h0 hwb
    unfold readLinux
    rw [if_neg (by simp [hopen, hv]), if_neg (by simp), if_pos h0, if_pos hwb]
  · intro h0 hwb
    unfold readLinux
    rw [if_neg (by simp [hopen, hv]), if_neg (by simp), if_pos h0, if_neg (by simp [hwb])]

/-- Witness for C10: a zero-byte read on an open Linux-path device yields
an empty buffer even though the errno is not would-block. -/
theorem c10_linux_read_zero_ok_w :
    readLinux devOpen3 false 4096 sysRead0 = Except.ok [] :=
  (c10_linux_read_zero_ok devOpen3 4096 sysRead0 (by decide) (by decide)).1 (by decide)

/-- Full characterization of the unit-scanning loop from any start unit u
with fuel 255 - u: exhaustion when every remaining unit is busy, success
at the first non-busy unit when it connects, the fatal error when the
first non-busy unit fails otherwise, and completeness of the success
case. -/
lemma scanAux_spec (connect : Nat → ConnectRes) :
    ∀ fuel u, u + fuel = 255 →
      ((∀ v, v < 255 → u ≤ v → connect v = .busy) →
        scanAux connect fuel u = .error msgNoUnit)
      ∧ (∀ t, u ≤ t → t < 255 → (∀ v, v < t → u ≤ v → connect v = .busy) →
          (connect t = .ok → scanAux connect fuel u = .ok t)
          ∧ (∀ m, connect t = .fatal m →
              scanAux connect fuel u = .error (msgConnectScan ++ m)))
      ∧ (∀ t, scanAux connect fuel u = .ok t →
          u ≤ t ∧ t < 255 ∧ connect t = .ok ∧ (∀ v, v < t → u ≤ v → connect v = .busy)) := by
  intro fuel
  induction fuel with
  | zero =>
    intro u hu
    refine ⟨fun _ => rfl, fun t ht h255 _ => absurd h255 (by omega), fun t h => ?_⟩
    simp [scanAux] at h
  | succ n ih =>
    intro u hu
    have hu255 : u < 255 := by omega
    have hih := ih (u + 1) (by omega)
    cases hc : connect u with
    | ok =>
      have hq : scanAux connect (n + 1) u = .ok u := by
        simp [scanAux, hu255, hc]
      refine ⟨?_, ?_, ?_⟩
      · intro hall
        have h2 := hall u hu255 le_rfl
        rw [hc] at h2
        exact nomatch h2
      · intro t ht h255 hbusy
        rcases eq_or_lt_of_le ht with rfl | hlt
        · exact ⟨fun _ => hq, fun m hm => (by rw [hc] at hm; exact nomatch hm)⟩
        · have h2 := hbusy u hlt le_rfl
          rw [hc] at h2
          exact nomatch h2
      · intro t hok
        rw [hq] at hok
        injection hok with ht
        subst ht
        exact ⟨le_rfl, hu255, hc, fun v hv huv => absurd hv (by omega)⟩
    | busy =>
      have hq : scanAux connect (n + 1) u = scanAux connect n (u + 1) := by
        simp [scanAux, hu255, hc]
      refine ⟨?_, ?_, ?_⟩
      · intro hall
        rw [hq]
        exact hih.1 (fun v hv huv => hall v hv (by omega))
      · intro t ht h255 hbusy
        rcases eq_or_lt_of_le ht with rfl | hlt
        · exact ⟨fun hok => (by rw [hc] at hok; exact nomatch hok),
                 fun m hm => (by rw [hc] at hm; exact nomatch hm)⟩
        · have h2 := hih.2.1 t (by omega) h255 (fun v hv huv => hbusy v hv (by omega))
          exact ⟨fun hok => (by rw [hq]; exact h2.1 hok),
                 fun m hm => (by rw [hq]; exact h2.2 m hm)⟩
      · intro t hok
        rw [hq] at hok
        obtain ⟨h1, h2, h3, h4⟩ := hih.2.2 t hok
        refine ⟨by omega, h2, h3, ?_⟩
        intro v hv huv
        rcases eq_or_lt_of_le huv with rfl | hlt
        · exact hc
        · exact h4 v hv (by omega)
    | fatal m =>
      have hq : scanAux connect (n + 1) u = .error (msgConnectScan ++ m) := by
        simp [scanAux, hu255, hc]
      refine ⟨?_, ?_, ?_⟩
      · intro hall
        have h2 := hall u hu255 le_rfl
        rw [hc] at h2
        exact nomatch h2
      · intro t ht h255 hbusy
        rcases eq_or_lt_of_le ht with rfl | hlt
        · refine ⟨fun hok => (by rw [hc] at hok; exact nomatch hok), fun m2 hm => ?_⟩
          rw [hc] at hm
          injection hm with hmm
          rw [hq, hmm]
        · have h2 := hbusy u hlt le_rfl
          rw [hc] at h2
          exact nomatch h2
      · intro t hok
        rw [hq] at hok
        exact nomatch hok

/-- C5: on the BSD-style open path with no specific unit requested, the
scan starts at unit 1, is bounded by the constant 255 (so units 1 to 254
are attempted in order), connects to the first unit not reporting busy,
treats busy as try-the-next-unit, treats any other connect error as
fatal, and reports a no-free-unit error when every unit in the scanned
range is busy; conversely a successful scan returns a unit in the scanned
range whose connect succeeded with every earlier unit busy. -/
theorem c5_unit_scan (connect : Nat → ConnectRes) :
    (∀ t, 1 ≤ t → t < 255 → (∀ v, v < t → 1 ≤ v → connect v = .busy) →
        (connect t = .ok → scanUnits connect = .ok t)
        ∧ (∀ m, connect t = .fatal m → scanUnits connect = .error (msgConnectScan ++ m)))
    ∧ ((∀ v, v < 255 → 1 ≤ v → connect v = .busy) → scanUnits connect = .error msgNoUnit)
    ∧ (∀ t, scanUnits connect = .ok t →
        1 ≤ t ∧ t < 255 ∧ connect t = .ok ∧ ∀ v, v < t → 1 ≤ v → connect v = .busy) := by
  have h := scanAux_spec connect 254 1 (by omega)
  exact ⟨fun t h1 h2 h3 => h.2.1 t h1 h2 h3, h.1, h.2.2⟩

/-- Witness for C5: with units 1 and 2 busy and unit 3 free, the scan
connects to unit 3. -/
theorem c5_unit_scan_w : scanUnits busyThenOk = Except.ok 3 :=
  ((c5_unit_scan busyThenOk).1 3 (by decide) (by decide) (by decide)).1 (by decide)

/-- The registry field is untouched by every device operation, because
Open and CloseInternal never call RegisterDevice or UnregisterDevice. -/
lemma runSys_registry (ops : List DevOp) : ∀ s : Sys, (runSys s ops).registry = s.registry := by
  induction ops with
  | nil => intro s; rfl
  | cons op rest ih =>
    intro s
    show (runSys (stepSys s op) rest).registry = s.registry
    rw [ih]
    rfl

/-- C6 is false as stated: a successful open() leaves the device with
is_open true while the registry is still empty, because the source
defines RegisterDevice and UnregisterDevice but never invokes them from
Open or CloseInternal, so the registry membership does not equal the set
of open devices. -/
theorem c6_registry_untracked_cex :
    (stepSys ⟨devNew noName, []⟩ (DevOp.openU false envAllOk)).dev.isOpen = true
    ∧ (stepSys ⟨devNew noName, []⟩ (DevOp.openU false envAllOk)).registry = [] :=
  ⟨by decide, rfl⟩

/-- C6 (amended): the registry operations themselves add on register and
remove on unregister, but open() and close() never invoke them, so after
any sequence of open and close operations a registry that started empty
is still empty regardless of which devices are open. -/
theorem c6_registry_inert (ops : List DevOp) (s : Sys) (h : s.registry = []) :
    (runSys s ops).registry = []
    ∧ (∀ r : List Nat, ∀ i : Nat, i ∈ registerDevice r i)
    ∧ (∀ r : List Nat, ∀ i : Nat, i ∉ unregisterDevice r i) := by
  refine ⟨by rw [runSys_registry]; exact h, ?_, ?_⟩
  · intro r i
    simp [registerDevice]
  · intro r i
    simp [unregisterDevice]

def opsW6 : List DevOp := [DevOp.openU false envAllOk, DevOp.closeD]

def sys0 : Sys := ⟨devNew noName, []⟩

/-- Witness for C6: after a successful open followed by a close the
registry is still empty, while direct register and unregister calls do
change membership. -/
theorem c6_registry_inert_w :
    (runSys sys0 opsW6).registry = []
    ∧ 7 ∈ registerDevice [] 7
    ∧ 7 ∉ unregisterDevice [3, 7] 7 := by
  have h := c6_registry_inert opsW6 sys0 rfl
  exact ⟨h.1, h.2.1 [] 7, h.2.2 [3, 7] 7⟩

lemma closeInternal_closed (d : TunDevice) (h : d.isOpen = false) : closeInternal d = (d, 0) := by
  unfold closeInternal
  rw [if_neg (by simp [h])]

lemma closeInternal_open (d : TunDevice) (h : d.isOpen = true) :
    closeInternal d = (⟨⟨-1⟩, d.name, false, false, false⟩, if 0 ≤ d.fd.val then 1 else 0) := by
  unfold closeInternal
  rw [if_pos h]
  rfl

lemma closeN_closed (d : TunDevice) (h : d.isOpen = false) : ∀ n, closeN d n = (d, 0) := by
  intro n
  induction n with
  | zero => rfl
  | succ m ih => simp [closeN, closeInternal_closed d h, ih]

/-- C7: close is idempotent: closing a closed (never-opened or failed-open)
device is a no-op, a second close after any close changes nothing and
performs no release, and across any number of close calls followed by
destruction the kernel handle is released exactly once when the device
was open with a held handle, and never otherwise. -/
theorem c7_close_idempotent_single_release (d : TunDevice)
    (hwf : d.isOpen = false → d.fd.val = -1) :
    (closeInternal (closeInternal d).1).1 = (closeInternal d).1
    ∧ (closeInternal (closeInternal d).1).2 = 0
    ∧ (d.isOpen = false → closeInternal d = (d, 0))
    ∧ (∀ n : Nat, (closeN d n).2 + destroyCloses (closeN d n).1 =
        if d.isOpen = true then (if 0 ≤ d.fd.val then 1 else 0) else 0) := by
  by_cases ho : d.isOpen = true
  · have hq := closeInternal_open d ho
    have hC : (closeInternal d).1.isOpen = false := by rw [hq]
    have hCfd : (closeInternal d).1.fd = ⟨-1⟩ := by rw [hq]
    have hclosed2 := closeInternal_closed (closeInternal d).1 hC
    refine ⟨by rw [hclosed2], by rw [hclosed2], fun hfo => ?_, ?_⟩
    · rw [ho] at hfo
      exact nomatch hfo
    intro n
    rw [if_pos ho]
    cases n with
    | zero =>
      show 0 + destroyCloses d = _
      unfold destroyCloses
      rw [hq]
      simp [FileDescriptor.destruct]
    | succ m =>
      have hrest := closeN_closed (closeInternal d).1 hC m
      simp only [closeN, hrest]
      unfold destroyCloses
      rw [hclosed2, hq]
      simp [FileDescriptor.destruct]
  · have ho2 : d.isOpen = false := by simp at ho; exact ho
    have hfd := hwf ho2
    have hq := closeInternal_closed d ho2
    refine ⟨?_, ?_, fun _ => hq, ?_⟩
    · rw [hq, hq]
    · rw [hq, hq]
    · intro n
      rw [if_neg ho, closeN_closed d ho2 n]
      unfold destroyCloses
      rw [hq]
      simp [FileDescriptor.destruct, hfd]

/-- Witness for C7: an open polling device with descriptor 5, closed three
times and then destroyed, performs exactly one kernel close. -/
theorem c7_close_idempotent_single_release_w :
    (closeN devPolling5 3).2 + destroyCloses (closeN devPolling5 3).1 =
      if devPolling5.isOpen = true then (if 0 ≤ devPolling5.fd.val then 1 else 0) else 0 :=
  (c7_close_idempotent_single_release devPolling5 (by decide)).2.2.2 3

lemma startPolling_success (d : TunDevice) (hopen : d.isOpen = true) (hfd : 0 ≤ d.fd.val) :
    startPolling d true true true =
      ({ d with pollActive := true, chanActive := true },
       ⟨1, if d.pollActive then 1 else 0, 1, if d.chanActive then 1 else 0⟩, Except.ok ()) := by
  have hv : d.fd.isValid = true := by simp [FileDescriptor.isValid, hfd]
  simp [startPolling, stopPolling, hopen, hv]

lemma iterStart_active (d : TunDevice) (hopen : d.isOpen = true) (hfd : 0 ≤ d.fd.val)
    (hp : d.pollActive = true) (hc : d.chanActive = true) :
    ∀ m, iterStart d m = (d, ⟨m, m, m, m⟩) := by
  have hd : ({ d with pollActive := true, chanActive := true } : TunDevice) = d := by
    cases d
    simp_all
  intro m
  induction m with
  | zero => rfl
  | succ k ih =>
    have hs := startPolling_success d hopen hfd
    rw [hp, hc] at hs
    simp only [if_true] at hs
    simp [iterStart, hs, hd, ih, PollEffects.add, Nat.add_comm]

/-- C8: from a freshly opened device, any number n >= 1 of successful
start_polling calls leaves exactly one active poll registration and one
active asynchronous channel, having acquired n poll registrations and n
channels and released n - 1 of each (every previously acquired resource
released, exactly one outstanding). -/
theorem c8_polling_single_registration (d : TunDevice) (hopen : d.isOpen = true)
    (hfd : 0 ≤ d.fd.val) (hp : d.pollActive = false) (hc : d.chanActive = false) :
    ∀ n : Nat, 1 ≤ n →
      (iterStart d n).1.pollActive = true ∧ (iterStart d n).1.chanActive = true
      ∧ (iterStart d n).2.pollAcq = n ∧ (iterStart d n).2.pollRel = n - 1
      ∧ (iterStart d n).2.chanAcq = n ∧ (iterStart d n).2.chanRel = n - 1 := by
  intro n hn
  obtain ⟨m, rfl⟩ : ∃ m, n = m + 1 := ⟨n - 1, by omega⟩
  have hs := startPolling_success d hopen hfd
  rw [hp, hc] at hs
  simp at hs
  have hact := iterStart_active ({ d with pollActive := true, chanActive := true })
    hopen hfd rfl rfl m
  simp [iterStart, hs, hact, PollEffects.add, Nat.add_comm]

/-- Witness for C8: two successful start_polling calls on a freshly opened
device leave one registration and one channel, with 2 acquisitions and 1
release of each resource. -/
theorem c8_polling_single_registration_w :
    (iterStart devOpen3 2).1.pollActive = true ∧ (iterStart devOpen3 2).1.chanActive = true
    ∧ (iterStart devOpen3 2).2.pollAcq = 2 ∧ (iterStart devOpen3 2).2.pollRel = 2 - 1
    ∧ (iterStart devOpen3 2).2.chanAcq = 2 ∧ (iterStart devOpen3 2).2.chanRel = 2 - 1 :=
  c8_polling_single_registration devOpen3 (by decide) (by decide) (by decide) (by decide)
    2 (by decide)

lemma stepDev_invariant (d : TunDevice) (op : DevOp) (hinv : devInvariant d)
    (hok : opNameOk op = true) : devInvariant (stepDev d op) := by
  cases op with
  | openU sh e =>
    have hok2 : ∀ nm, e.ifnameRes = some nm → nm ≠ "" := by
      intro nm hn
      simp only [opNameOk] at hok
      rw [hn] at hok
      exact of_decide_eq_true hok
    show devInvariant (openUtun d sh e).1
    rcases openUtun_cases d sh e with ⟨h1, h2⟩ | ⟨m, _, ho2, hf, _, _, hm⟩ | ⟨hfd, nm, hn, h2⟩
    · rw [h2]
      exact hinv
    · constructor
      · intro hcl
        rw [ho2] at hcl
        rw [hf]
        exact hinv.1 hcl
      · intro hop
        rw [ho2] at hop
        refine ⟨by rw [hf]; exact (hinv.2 hop).1, ?_⟩
        rcases hm with hm | ⟨nm, hn, hm⟩
        · rw [hm]
          exact (hinv.2 hop).2
        · rw [hm]
          exact hok2 nm hn
    · rw [h2]
      exact ⟨fun hcl => (nomatch hcl), fun _ => ⟨hfd, hok2 nm hn⟩⟩
  | closeD =>
    show devInvariant (closeInternal d).1
    by_cases ho : d.isOpen = true
    · rw [closeInternal_open d ho]
      exact ⟨fun _ => rfl, fun hop => nomatch hop⟩
    · have ho2 : d.isOpen = false := by simp at ho; exact ho
      rw [closeInternal_closed d ho2]
      exact hinv
  | readU => exact hinv
  | writeU => exact hinv
  | startP cb o1 o2 =>
    show devInvariant (startPolling d cb o1 o2).1
    have hfields : (startPolling d cb o1 o2).1.isOpen = d.isOpen
        ∧ (startPolling d cb o1 o2).1.fd = d.fd
        ∧ (startPolling d cb o1 o2).1.name = d.name := by
      unfold startPolling
      split
      · exact ⟨rfl, rfl, rfl⟩
      · split
        · exact ⟨rfl, rfl, rfl⟩
        · split
          · exact ⟨rfl, rfl, rfl⟩
          · split
            · exact ⟨rfl, rfl, rfl⟩
            · exact ⟨rfl, rfl, rfl⟩
    constructor
    · intro hcl
      rw [hfields.1] at hcl
      rw [hfields.2.1]
      exact hinv.1 hcl
    · intro hop
      rw [hfields.1] at hop
      rw [hfields.2.1, hfields.2.2]
      exact hinv.2 hop
  | stopP =>
    show devInvariant (stopPolling d).1
    exact ⟨fun h => hinv.1 h, fun h => hinv.2 h⟩

lemma runOps_invariant (ops : List DevOp) : ∀ d, devInvariant d →
    (∀ op ∈ ops, opNameOk op = true) → devInvariant (runOps d ops) := by
  induction ops with
  | nil => intro d h _; exact h
  | cons op rest ih =>
    intro d h hall
    show devInvariant (runOps (stepDev d op) rest)
    exact ih (stepDev d op) (stepDev_invariant d op h (hall op (by simp)))
      (fun o ho => hall o (by simp [ho]))

/-- C9: starting from a freshly constructed device and running any
sequence of operations (in environments whose kernel-reported names are
non-empty), whenever the device is open its handle accessor returns a
value >= 0 and its name is non-empty, and whenever it is not open the
handle accessor returns -1. -/
theorem c9_open_name_handle_invariant (ops : List DevOp) (requested : String)
    (h : ∀ op ∈ ops, opNameOk op = true) :
    ((runOps (devNew requested) ops).isOpen = true →
      0 ≤ getFd (runOps (devNew requested) ops)
        ∧ getName (runOps (devNew requested) ops) ≠ "")
    ∧ ((runOps (devNew requested) ops).isOpen = false →
      getFd (runOps (devNew requested) ops) = -1) := by
  have hinv := runOps_invariant ops (devNew requested)
    ⟨fun _ => rfl, fun hx => nomatch hx⟩ h
  exact ⟨fun hop => hinv.2 hop, fun hcl => hinv.1 hcl⟩

def opsW9 : List DevOp := [DevOp.openU false envAllOk, DevOp.closeD]

/-- Witness for C9: opening and then closing a device leaves the handle
accessor at -1. -/
theorem c9_open_name_handle_invariant_w :
    getFd (runOps (devNew noName) opsW9) = -1 :=
  (c9_open_name_handle_invariant opsW9 noName (by decide)).2 (by decide)

end TunTap
